import Mathlib

/-!
Verification of `aws-dynamodb-utlity` (`src/index.js`).

The utility copies DynamoDB table schemas across AWS accounts.  We embed the
pure decision logic of `src/index.js` shallowly:

* JavaScript objects (the fetched table schema `table.config`, the creation
  request `params`) become association lists `List (String × JsValue)` with
  first-match lookup; `delete obj.k` becomes key removal; `Object.assign`
  becomes list append with the source fields taking lookup priority.
* The creation-request transform (lines 207-222 of `index.js`) becomes
  `createTableParams`.  A JavaScript `TypeError` thrown inside the promise
  executor (dereferencing an absent `ProvisionedThroughput`) is modelled by
  returning `none`: the executor throws before `destDynamodb.createTable` is
  invoked, so no creation call is issued.
* The Glue type switch (lines 265-276) becomes `glueType`; the mapping-string
  template (line 278) becomes `mappingEntry`/`mappings`.
* The S3 object key, Glue job name and script location templates
  (lines 288, 312, 317) become `glueScriptKey`, `glueJobName`,
  `glueJobScriptLocation`.
-/

/-- A JavaScript value as far as the schema transform observes it. -/
inductive JsValue where
  | str : String → JsValue
  | num : Int → JsValue
  | bool : Bool → JsValue
  | obj : List (String × JsValue) → JsValue

/-- A JavaScript object: field names to values, first binding wins on lookup. -/
abbrev JsObject := List (String × JsValue)

/-- Property lookup `o[k]`: the value of the first binding of `k`, if any. -/
def lookupField : JsObject → String → Option JsValue
  | [], _ => none
  | p :: o, k => if p.1 = k then some p.2 else lookupField o k

/-- The JavaScript `delete o.k`: remove the binding(s) of key `k`. -/
def deleteField (k : String) : JsObject → JsObject
  | [] => []
  | p :: o => if p.1 = k then deleteField k o else p :: deleteField k o

/-- Delete a list of keys in order. -/
def deleteFields (ks : List String) (o : JsObject) : JsObject :=
  ks.foldl (fun acc k => deleteField k acc) o

/-- Overwrite the value stored at key `k` (a no-op when `k` is absent). -/
def setField (k : String) (v : JsValue) : JsObject → JsObject
  | [] => []
  | p :: o => if p.1 = k then (p.1, v) :: setField k v o else p :: setField k v o

/-- The ten top-level fields deleted from the creation request, in the order
of the `delete params.…` statements at lines 210-219 of `index.js`. -/
def excludedFields : List String :=
  ["CreationDateTime", "ItemCount", "LastDecreaseDateTime", "LatestStreamArn",
   "LatestStreamLabel", "NumberOfDecreasesToday", "TableArn", "TableId",
   "TableSizeBytes", "TableStatus"]

/-- The first half of the creation-request transform (lines 208-219):
`params = Object.assign({ TableName: tableName }, table.config)` followed by
the ten top-level `delete`s.  `Object.assign` gives the fields of
`table.config` priority over the `TableName` seed, which we render by
appending the seed after the config fields under first-match lookup. -/
def strippedParams (tableName : String) (config : JsObject) : JsObject :=
  deleteFields excludedFields (config ++ [("TableName", JsValue.str tableName)])

/-- The creation-request transform of `scripts.init` (lines 207-222): strip
the ten top-level fields, then perform the two nested `delete`s on
`params.ProvisionedThroughput`.  Dereferencing `params.ProvisionedThroughput`
when the schema has no such field throws a `TypeError` inside the promise
executor, rejecting the promise before `createTable` is called; that is the
`none` result.  When `ProvisionedThroughput` holds a primitive, `delete` on
it is a no-op (non-strict mode), so the params pass through unchanged. -/
def createTableParams (tableName : String) (config : JsObject) : Option JsObject :=
  match lookupField (strippedParams tableName config) "ProvisionedThroughput" with
  | none => none
  | some (JsValue.obj pt) =>
      some (setField "ProvisionedThroughput"
        (JsValue.obj (deleteField "NumberOfDecreasesToday"
          (deleteField "LastDecreaseDateTime" pt)))
        (strippedParams tableName config))
  | some _ => some (strippedParams tableName config)

/-- The Glue column-type switch at lines 265-276 of `index.js`. -/
def glueType (type : String) : String :=
  if type = "N" then "long"
  else if type = "S" then "string"
  else if type = "BOOL" then "boolean"
  else "string"

/-- One entry of `AttributeDefinitions`: `{ AttributeName, AttributeType }`. -/
structure AttributeDefinition where
  AttributeName : String
  AttributeType : String
  deriving DecidableEq, Repr

/-- The rendered mapping string of line 278:
`("Item.${name}.${type}", "string", "${name}", "${glueType}")`. -/
def mappingEntry (a : AttributeDefinition) : String :=
  "(\"Item." ++ a.AttributeName ++ "." ++ a.AttributeType ++ "\", \"string\", \""
    ++ a.AttributeName ++ "\", \"" ++ glueType a.AttributeType ++ "\")"

/-- The mapping list of lines 261-279: one rendered entry per attribute. -/
def mappings (attrs : List AttributeDefinition) : List String :=
  attrs.map mappingEntry

/-- Rendering of an abstract 4-tuple in the syntax the template emits; used to
state that the mapping list "contains the tuple" `(src, srcTy, dst, dstTy)`. -/
def renderTuple (t : String × String × String × String) : String :=
  "(\"" ++ t.1 ++ "\", \"" ++ t.2.1 ++ "\", \"" ++ t.2.2.1 ++ "\", \"" ++ t.2.2.2 ++ "\")"

/-- The S3 object key of the uploaded script (line 288): `glue-script-<t>.py`. -/
def glueScriptKey (tableName : String) : String :=
  "glue-script-" ++ tableName ++ ".py"

/-- Name of the registered Glue job (line 312): `ddb-job-<t>`. -/
def glueJobName (tableName : String) : String :=
  "ddb-job-" ++ tableName

/-- The `ScriptLocation` of the registered Glue job (line 317):
`s3://<glue_bucket>/glue-script-<t>.py`. -/
def glueJobScriptLocation (glueBucket tableName : String) : String :=
  "s3://" ++ glueBucket ++ "/glue-script-" ++ tableName ++ ".py"

/-!
The fan-out/join pipeline of `scripts.init`.  Each stage builds an array of
promises over the table list and then does `await Promise.all(array)`.  The
promise executors run synchronously at construction, so every remote request
of a stage is issued when the stage runs, independently of the outcomes of those
requests; the `await` then either yields (all fulfilled) or rethrows the
first rejection, in which case the code after it never runs.  We record the
issued requests as `Effect`s and model the outcome of each remote call with an
oracle `res : OpKind → String → Except String Unit`.

In the Glue-script stage (lines 241-299) the per-table promise is built but
never pushed onto `createGlueScriptPromises`, so the array awaited at
line 301 is empty: the uploads are issued but not awaited.  `initRun` renders
that stage with an empty awaited list, exactly as the source leaves it.
-/

/-- The five per-table remote operations issued by `scripts.init`. -/
inductive OpKind where
  | pitr | stream | create | upload | job
  deriving DecidableEq, Repr

/-- One issued remote request: which operation, for which table. -/
structure Effect where
  kind : OpKind
  table : String
  deriving DecidableEq, Repr

/-- The model of `Promise.all` over settled outcomes: fulfilled iff all are, otherwise the
first rejection wins. -/
def promiseAll : List (Except String Unit) → Except String Unit
  | [] => Except.ok ()
  | Except.ok () :: rest => promiseAll rest
  | Except.error e :: _ => Except.error e

/-- One `build promise array; await Promise.all` stage: the `issued` requests
happen unconditionally; the continuation `rest` runs only when every awaited
outcome is a fulfillment, otherwise the stage returns the first rejection. -/
def awaitBarrier (issued : List Effect) (awaited : List (Except String Unit))
    (rest : Unit → List Effect × Except String Unit) : List Effect × Except String Unit :=
  match promiseAll awaited with
  | Except.error e => (issued, Except.error e)
  | Except.ok _ => (issued ++ (rest ()).1, (rest ()).2)

/-- Tables created at lines 199-235: the `forEach` body returns early (line
203-205) when `destTableNames.indexOf(tableName) !== -1`, so a table is
processed iff its name is not in the destination listing. -/
def tablesToCreate (tables destTableNames : List String) : List String :=
  tables.filter (fun t => !destTableNames.contains t)

/-- The stage structure of `scripts.init` (lines 121-338): enable PITR,
enable streams, create missing tables, upload Glue scripts, create Glue jobs.
Every stage issues one request per processed table and awaits one promise per
request — except the upload stage, whose promises are never pushed onto
`createGlueScriptPromises`, leaving its awaited list empty. -/
def initRun (tables destTableNames : List String)
    (res : OpKind → String → Except String Unit) : List Effect × Except String Unit :=
  awaitBarrier (tables.map (Effect.mk OpKind.pitr)) (tables.map (res OpKind.pitr)) (fun _ =>
  awaitBarrier (tables.map (Effect.mk OpKind.stream)) (tables.map (res OpKind.stream)) (fun _ =>
  awaitBarrier ((tablesToCreate tables destTableNames).map (Effect.mk OpKind.create))
    ((tablesToCreate tables destTableNames).map (res OpKind.create)) (fun _ =>
  awaitBarrier (tables.map (Effect.mk OpKind.upload)) [] (fun _ =>
  awaitBarrier (tables.map (Effect.mk OpKind.job)) (tables.map (res OpKind.job)) (fun _ =>
  ([], Except.ok ()))))))

/-!
The dispatcher (lines 342-362).  `run(operation, excludedStreams)` looks up
`scripts[operation]` and calls it when `typeof` yields the string `function`, else
logs an invalid-operation error.  `scripts` is a plain object literal whose
single own key is `init`, but JavaScript property lookup walks the prototype
chain: for the names of the function-valued properties of
`Object.prototype`, `scripts[operation]` is an inherited function and the
dispatcher calls it — issuing no remote request and logging nothing.
`scripts.init` is a zero-parameter arrow function, so the `excludedStreams`
argument passed at line 348 is discarded. -/

/-- The environment `scripts.init` runs against: discovered source tables,
the destination listing, and the outcome of each remote call. -/
structure InitEnv where
  tables : List String
  destTableNames : List String
  res : OpKind → String → Except String Unit

/-- Names of the function-valued properties inherited from
`Object.prototype` by the `scripts` object literal. -/
def objectPrototypeFunctionKeys : List String :=
  ["constructor", "hasOwnProperty", "isPrototypeOf", "propertyIsEnumerable",
   "toLocaleString", "toString", "valueOf",
   "__defineGetter__", "__defineSetter__", "__lookupGetter__", "__lookupSetter__"]

/-- Observable outcome of one dispatch. -/
inductive DispatchOutcome where
  | ranInit (result : List Effect × Except String Unit)
  | ranInherited (name : String)
  | invalidOperation

set_option linter.unusedVariables false in
/-- The function `scripts.init` as called by the dispatcher: it is declared with an empty
parameter list, so the `excludedStreams` argument is ignored. -/
def scriptsInit (excludedStreams : List String) (env : InitEnv) :
    List Effect × Except String Unit :=
  initRun env.tables env.destTableNames env.res

/-- The `run` function (lines 343-353): dispatch on `scripts[operation]`. -/
def run (operation : String) (excludedStreams : List String) (env : InitEnv) :
    DispatchOutcome :=
  if operation = "init" then
    DispatchOutcome.ranInit (scriptsInit excludedStreams env)
  else if objectPrototypeFunctionKeys.contains operation then
    DispatchOutcome.ranInherited operation
  else
    DispatchOutcome.invalidOperation

/-- A managed-function event payload: `{ operation, excludedStreams }`. -/
structure LambdaEvent where
  operation : String
  excludedStreams : List String

/-- The Lambda handler (lines 356-358):
`run(event.operation, event.excludedStreams)`. -/
def handler (event : LambdaEvent) (env : InitEnv) : DispatchOutcome :=
  run event.operation event.excludedStreams env

/-! Lookup lemmas for the object model -/

theorem lookupField_deleteField_self (k : String) (o : JsObject) :
    lookupField (deleteField k o) k = none := by
  induction o with
  | nil => rfl
  | cons p o ih =>
    by_cases h : p.1 = k <;> simp [deleteField, lookupField, h, ih]

theorem lookupField_deleteField_ne (k k' : String) (o : JsObject) (h : k ≠ k') :
    lookupField (deleteField k' o) k = lookupField o k := by
  have h' : k' ≠ k := Ne.symm h
  induction o with
  | nil => rfl
  | cons p o ih =>
    by_cases hp : p.1 = k'
    · simp [deleteField, lookupField, hp, h', ih]
    · by_cases hk : p.1 = k <;> simp [deleteField, lookupField, hp, hk, h, ih]

theorem lookupField_deleteField_none (k k' : String) (o : JsObject)
    (h : lookupField o k = none) :
    lookupField (deleteField k' o) k = none := by
  by_cases hk : k = k'
  · rw [hk]; exact lookupField_deleteField_self k' o
  · rw [lookupField_deleteField_ne k k' o hk]; exact h

theorem lookupField_deleteFields_of_not_mem (ks : List String) (k : String) (o : JsObject)
    (h : k ∉ ks) :
    lookupField (deleteFields ks o) k = lookupField o k := by
  induction ks generalizing o with
  | nil => rfl
  | cons k' ks ih =>
    have h1 : k ≠ k' := fun hk => h (hk ▸ List.mem_cons_self k' ks)
    have h2 : k ∉ ks := fun hk => h (List.mem_cons_of_mem k' hk)
    show lookupField (deleteFields ks (deleteField k' o)) k = lookupField o k
    rw [ih (deleteField k' o) h2, lookupField_deleteField_ne k k' o h1]

theorem lookupField_deleteFields_none (ks : List String) (k : String) (o : JsObject)
    (h : lookupField o k = none) :
    lookupField (deleteFields ks o) k = none := by
  induction ks generalizing o with
  | nil => exact h
  | cons k' ks ih =>
    show lookupField (deleteFields ks (deleteField k' o)) k = none
    exact ih _ (lookupField_deleteField_none k k' o h)

theorem lookupField_deleteFields_of_mem (ks : List String) (k : String) (o : JsObject)
    (h : k ∈ ks) :
    lookupField (deleteFields ks o) k = none := by
  induction ks generalizing o with
  | nil => cases h
  | cons k' ks ih =>
    show lookupField (deleteFields ks (deleteField k' o)) k = none
    by_cases hk : k ∈ ks
    · exact ih _ hk
    · have hkk : k = k' := by
        rcases List.mem_cons.mp h with h1 | h1
        · exact h1
        · exact absurd h1 hk
      exact lookupField_deleteFields_none ks k _ (hkk ▸ lookupField_deleteField_self k' o)

theorem lookupField_append_some (o₁ o₂ : JsObject) (k : String) (v : JsValue)
    (h : lookupField o₁ k = some v) :
    lookupField (o₁ ++ o₂) k = some v := by
  induction o₁ with
  | nil => cases h
  | cons p o ih =>
    by_cases hp : p.1 = k
    · simp only [lookupField, hp, if_pos] at h
      simpa [lookupField, hp] using h
    · simp only [lookupField, hp, if_neg, if_false] at h
      simpa [lookupField, hp] using ih h

theorem lookupField_append_none (o₁ o₂ : JsObject) (k : String)
    (h : lookupField o₁ k = none) :
    lookupField (o₁ ++ o₂) k = lookupField o₂ k := by
  induction o₁ with
  | nil => rfl
  | cons p o ih =>
    by_cases hp : p.1 = k
    · simp [lookupField, hp] at h
    · simp only [lookupField, hp, if_neg, if_false] at h
      simpa [lookupField, hp] using ih h

theorem lookupField_singleton_ne (k k' : String) (v : JsValue) (h : k ≠ k') :
    lookupField [(k', v)] k = none := by
  simp [lookupField, Ne.symm h]

theorem lookupField_setField_ne (k k' : String) (v : JsValue) (o : JsObject) (h : k ≠ k') :
    lookupField (setField k' v o) k = lookupField o k := by
  have h' : k' ≠ k := Ne.symm h
  induction o with
  | nil => rfl
  | cons p o ih =>
    by_cases hp : p.1 = k'
    · simp [setField, lookupField, hp, h', ih]
    · by_cases hk : p.1 = k <;> simp [setField, lookupField, hp, hk, h, ih]

theorem lookupField_setField_self (k : String) (v w : JsValue) (o : JsObject)
    (h : lookupField o k = some w) :
    lookupField (setField k v o) k = some v := by
  induction o with
  | nil => cases h
  | cons p o ih =>
    by_cases hp : p.1 = k
    · simp [setField, lookupField, hp]
    · simp only [lookupField, hp, if_neg, if_false] at h
      simpa [setField, lookupField, hp] using ih h

/-! The creation-request transform (claims C1 and C10) -/

theorem lookupField_strippedParams (n : String) (config : JsObject) (k : String)
    (h1 : k ∉ excludedFields) (h2 : k ≠ "TableName") :
    lookupField (strippedParams n config) k = lookupField config k := by
  unfold strippedParams
  rw [lookupField_deleteFields_of_not_mem _ _ _ h1]
  cases hc : lookupField config k with
  | some v => exact lookupField_append_some _ _ _ _ hc
  | none =>
    rw [lookupField_append_none _ _ _ hc, lookupField_singleton_ne _ _ _ h2]

theorem lookupField_strippedParams_tableName (n : String) (config : JsObject) :
    lookupField (strippedParams n config) "TableName"
      = some ((lookupField config "TableName").getD (JsValue.str n)) := by
  unfold strippedParams
  rw [lookupField_deleteFields_of_not_mem _ _ _ (by decide)]
  cases hc : lookupField config "TableName" with
  | some v => rw [lookupField_append_some _ _ _ _ hc]; rfl
  | none => rw [lookupField_append_none _ _ _ hc]; rfl

theorem lookupField_strippedParams_excluded (n : String) (config : JsObject) (k : String)
    (h : k ∈ excludedFields) :
    lookupField (strippedParams n config) k = none :=
  lookupField_deleteFields_of_mem _ _ _ h

/-- What claim C1 asserts of a produced creation request `params`: none of
the excluded top-level fields remain, `ProvisionedThroughput` is the source
object minus its two excluded nested fields, every other field is unchanged,
and `TableName` is present (the value stored in the config when it has one, else the
seeded table name). -/
def CreationRequestSpec (n : String) (config params : JsObject) : Prop :=
  (∀ k ∈ excludedFields, lookupField params k = none)
  ∧ (∀ pt, lookupField config "ProvisionedThroughput" = some (JsValue.obj pt) →
      lookupField params "ProvisionedThroughput" =
        some (JsValue.obj (deleteField "NumberOfDecreasesToday"
          (deleteField "LastDecreaseDateTime" pt))))
  ∧ (∀ pt, lookupField params "ProvisionedThroughput" = some (JsValue.obj pt) →
      lookupField pt "LastDecreaseDateTime" = none
      ∧ lookupField pt "NumberOfDecreasesToday" = none)
  ∧ (∀ k, k ∉ excludedFields → k ≠ "TableName" → k ≠ "ProvisionedThroughput" →
      lookupField params k = lookupField config k)
  ∧ lookupField params "TableName" =
      some ((lookupField config "TableName").getD (JsValue.str n))

theorem creationRequestSpec_of_nonobj (n : String) (config : JsObject) (v : JsValue)
    (hpt : lookupField (strippedParams n config) "ProvisionedThroughput" = some v)
    (hnobj : ∀ pt, v ≠ JsValue.obj pt) :
    CreationRequestSpec n config (strippedParams n config) := by
  have hconf : lookupField config "ProvisionedThroughput" = some v := by
    rw [← lookupField_strippedParams n config _ (by decide) (by decide)]
    exact hpt
  refine ⟨fun k hk => lookupField_strippedParams_excluded n config k hk, ?_, ?_, ?_,
    lookupField_strippedParams_tableName n config⟩
  · intro pt hpt0
    rw [hconf] at hpt0
    injection hpt0 with h0
    exact absurd h0 (hnobj pt)
  · intro pt hpt0
    rw [hpt] at hpt0
    injection hpt0 with h0
    exact absurd h0 (hnobj pt)
  · intro k hk1 hk2 hk3
    exact lookupField_strippedParams n config k hk1 hk2

/-- Claim C1: For every fetched source table schema for which the transform
completes, the produced creation request contains none of the excluded
server-assigned fields (the ten top-level ones and the two nested
`ProvisionedThroughput` ones) and contains every other field of the schema
unchanged, plus `TableName`. -/
theorem c1_creation_request_transform (n : String) (config params : JsObject)
    (h : createTableParams n config = some params) :
    CreationRequestSpec n config params := by
  unfold createTableParams at h
  cases hpt : lookupField (strippedParams n config) "ProvisionedThroughput" with
  | none => rw [hpt] at h; cases h
  | some v =>
    rw [hpt] at h
    cases v with
    | str s =>
      injection h with h
      subst h
      exact creationRequestSpec_of_nonobj n config _ hpt (fun pt hh => JsValue.noConfusion hh)
    | num i =>
      injection h with h
      subst h
      exact creationRequestSpec_of_nonobj n config _ hpt (fun pt hh => JsValue.noConfusion hh)
    | bool b =>
      injection h with h
      subst h
      exact creationRequestSpec_of_nonobj n config _ hpt (fun pt hh => JsValue.noConfusion hh)
    | obj pt =>
      injection h with h
      subst h
      have hconf : lookupField config "ProvisionedThroughput" = some (JsValue.obj pt) := by
        rw [← lookupField_strippedParams n config _ (by decide) (by decide)]
        exact hpt
      refine ⟨?_, ?_, ?_, ?_, ?_⟩
      · intro k hk
        have hkpt : k ≠ "ProvisionedThroughput" := fun he =>
          (by decide : "ProvisionedThroughput" ∉ excludedFields) (he ▸ hk)
        rw [lookupField_setField_ne _ _ _ _ hkpt]
        exact lookupField_strippedParams_excluded n config k hk
      · intro pt0 hpt0
        rw [hconf] at hpt0
        injection hpt0 with h0
        injection h0 with h0
        subst h0
        exact lookupField_setField_self _ _ _ _ hpt
      · intro pt0 hpt0
        rw [lookupField_setField_self _ _ _ _ hpt] at hpt0
        injection hpt0 with h0
        injection h0 with h0
        rw [← h0]
        constructor
        · rw [lookupField_deleteField_ne _ _ _ (by decide)]
          exact lookupField_deleteField_self _ _
        · exact lookupField_deleteField_self _ _
      · intro k hk1 hk2 hk3
        rw [lookupField_setField_ne _ _ _ _ hk3]
        exact lookupField_strippedParams n config k hk1 hk2
      · rw [lookupField_setField_ne _ _ _ _ (by decide)]
        exact lookupField_strippedParams_tableName n config

/-- A fetched schema as `describeTable` returns it for a provisioned table,
with server-assigned fields present. -/
def exampleConfig : JsObject :=
  [("AttributeDefinitions", JsValue.obj [("AttributeName", JsValue.str "id")]),
   ("TableName", JsValue.str "Orders"),
   ("KeySchema", JsValue.obj [("AttributeName", JsValue.str "id")]),
   ("TableStatus", JsValue.str "ACTIVE"),
   ("CreationDateTime", JsValue.num 1600000000),
   ("ProvisionedThroughput",
     JsValue.obj [("NumberOfDecreasesToday", JsValue.num 2),
                  ("ReadCapacityUnits", JsValue.num 5),
                  ("WriteCapacityUnits", JsValue.num 5)]),
   ("TableSizeBytes", JsValue.num 1024),
   ("ItemCount", JsValue.num 3),
   ("TableArn", JsValue.str "arn:aws:dynamodb:us-east-1:123:table/Orders")]

/-- The request the transform produces from `exampleConfig`. -/
def exampleParams : JsObject :=
  [("AttributeDefinitions", JsValue.obj [("AttributeName", JsValue.str "id")]),
   ("TableName", JsValue.str "Orders"),
   ("KeySchema", JsValue.obj [("AttributeName", JsValue.str "id")]),
   ("ProvisionedThroughput",
     JsValue.obj [("ReadCapacityUnits", JsValue.num 5),
                  ("WriteCapacityUnits", JsValue.num 5)]),
   ("TableName", JsValue.str "Orders")]

theorem c1_witness :
    createTableParams "Orders" exampleConfig = some exampleParams
    ∧ lookupField exampleParams "TableStatus" = none
    ∧ lookupField exampleParams "KeySchema" = lookupField exampleConfig "KeySchema"
    ∧ lookupField exampleParams "TableName"
        = some ((lookupField exampleConfig "TableName").getD (JsValue.str "Orders")) := by
  have h := c1_creation_request_transform "Orders" exampleConfig exampleParams rfl
  exact ⟨rfl, h.1 "TableStatus" (by decide),
    h.2.2.2.1 "KeySchema" (by decide) (by decide) (by decide), h.2.2.2.2⟩

/-- Claim C10: For every fetched table schema with no `ProvisionedThroughput`
field, the creation-request transform is not total: the nested deletes
dereference the absent `ProvisionedThroughput` object, the promise executor
throws, and no creation call is issued (result `none`). -/
theorem c10_absent_provisioned_throughput_throws (n : String) (config : JsObject)
    (h : lookupField config "ProvisionedThroughput" = none) :
    createTableParams n config = none := by
  have hpt : lookupField (strippedParams n config) "ProvisionedThroughput" = none := by
    rw [lookupField_strippedParams n config _ (by decide) (by decide)]
    exact h
  unfold createTableParams
  rw [hpt]

/-- An on-demand table schema: no `ProvisionedThroughput` field at all. -/
def onDemandConfig : JsObject :=
  [("AttributeDefinitions", JsValue.obj [("AttributeName", JsValue.str "id")]),
   ("KeySchema", JsValue.obj [("AttributeName", JsValue.str "id")]),
   ("BillingModeSummary", JsValue.obj [("BillingMode", JsValue.str "PAY_PER_REQUEST")]),
   ("TableStatus", JsValue.str "ACTIVE")]

theorem c10_witness :
    lookupField onDemandConfig "ProvisionedThroughput" = none
    ∧ createTableParams "OnDemand" onDemandConfig = none :=
  ⟨rfl, c10_absent_provisioned_throughput_throws "OnDemand" onDemandConfig rfl⟩

/-! The fan-out/join pipeline (claims C2, C3, C4) -/

theorem promiseAll_map_ok {α : Type} (l : List α) (f : α → Except String Unit)
    (h : ∀ x ∈ l, f x = Except.ok ()) : promiseAll (l.map f) = Except.ok () := by
  induction l with
  | nil => rfl
  | cons x l ih =>
    have hx : f x = Except.ok () := h x (List.mem_cons_self x l)
    show promiseAll (f x :: l.map f) = Except.ok ()
    rw [hx]
    exact ih (fun y hy => h y (List.mem_cons_of_mem x hy))

theorem awaitBarrier_ok (issued : List Effect) (awaited : List (Except String Unit))
    (rest : Unit → List Effect × Except String Unit)
    (h : promiseAll awaited = Except.ok ()) :
    awaitBarrier issued awaited rest = (issued ++ (rest ()).1, (rest ()).2) := by
  unfold awaitBarrier
  rw [h]

theorem awaitBarrier_error (issued : List Effect) (awaited : List (Except String Unit))
    (rest : Unit → List Effect × Except String Unit) (e : String)
    (h : promiseAll awaited = Except.error e) :
    awaitBarrier issued awaited rest = (issued, Except.error e) := by
  unfold awaitBarrier
  rw [h]

/-- Remote outcomes in which every Glue-script upload rejects and everything
else fulfills. -/
def uploadFailureRes : OpKind → String → Except String Unit :=
  fun k _ => if k = OpKind.upload then Except.error "upload failed" else Except.ok ()

/-- Claim C2, code bug: with one table `Orders` whose script upload fails, the
upload request is issued but the awaited array (`createGlueScriptPromises`)
was never filled — the promise built in the `forEach` at lines 250-298 is
never pushed — so the barrier at line 301 waits on nothing: the Glue job
registration is issued and the run completes successfully even though the
upload rejected.  The claim that no job registration is issued before every
script upload has completed is violated by the code. -/
theorem c2_upload_stage_not_awaited :
    uploadFailureRes OpKind.upload "Orders" = Except.error "upload failed"
    ∧ Effect.mk OpKind.upload "Orders" ∈ (initRun ["Orders"] [] uploadFailureRes).1
    ∧ Effect.mk OpKind.job "Orders" ∈ (initRun ["Orders"] [] uploadFailureRes).1
    ∧ (initRun ["Orders"] [] uploadFailureRes).2 = Except.ok () := by
  refine ⟨rfl, by decide, by decide, rfl⟩

/-- Remote outcomes in which the script upload for table `Users` rejects and
everything else fulfills. -/
def usersUploadFailureRes : OpKind → String → Except String Unit :=
  fun k _ => if k = OpKind.upload then Except.error "access denied" else Except.ok ()

/-- Claim C3, counterexample: The script-upload batch over `["Users"]` contains
a failing operation, yet the run does not report failure (overall outcome is
`ok`) and does proceed to the next stage (the Glue-job request for `Users` is
issued): the claim is false for that batch, because its promises are never
awaited. -/
theorem c3_counterexample :
    usersUploadFailureRes OpKind.upload "Users" = Except.error "access denied"
    ∧ Effect.mk OpKind.upload "Users" ∈ (initRun ["Users"] [] usersUploadFailureRes).1
    ∧ (initRun ["Users"] [] usersUploadFailureRes).2 = Except.ok ()
    ∧ Effect.mk OpKind.job "Users" ∈ (initRun ["Users"] [] usersUploadFailureRes).1 := by
  refine ⟨rfl, by decide, rfl, by decide⟩

/-- Claim C3, amended: For each of the four batches the pipeline actually
awaits — enable PITR, enable streaming, create table, create job — a failing
operation makes the run report that failure and not proceed to the next
stage, while the issued requests of the batch itself (the remote effects of
the other operations) all remain: there is no compensating rollback.  The
script-upload batch is excluded: its promises are never awaited, so its
failures do not abort the run. -/
theorem c3_awaited_batches_abort (tables destTableNames : List String)
    (res : OpKind → String → Except String Unit) (e : String) :
    (promiseAll (tables.map (res OpKind.pitr)) = Except.error e →
      initRun tables destTableNames res =
        (tables.map (Effect.mk OpKind.pitr), Except.error e))
    ∧ ((∀ t ∈ tables, res OpKind.pitr t = Except.ok ()) →
       promiseAll (tables.map (res OpKind.stream)) = Except.error e →
      initRun tables destTableNames res =
        (tables.map (Effect.mk OpKind.pitr) ++ tables.map (Effect.mk OpKind.stream),
         Except.error e))
    ∧ ((∀ t ∈ tables, res OpKind.pitr t = Except.ok ()) →
       (∀ t ∈ tables, res OpKind.stream t = Except.ok ()) →
       promiseAll ((tablesToCreate tables destTableNames).map (res OpKind.create))
         = Except.error e →
      initRun tables destTableNames res =
        (tables.map (Effect.mk OpKind.pitr) ++ (tables.map (Effect.mk OpKind.stream)
          ++ (tablesToCreate tables destTableNames).map (Effect.mk OpKind.create)),
         Except.error e))
    ∧ ((∀ t ∈ tables, res OpKind.pitr t = Except.ok ()) →
       (∀ t ∈ tables, res OpKind.stream t = Except.ok ()) →
       (∀ t ∈ tablesToCreate tables destTableNames, res OpKind.create t = Except.ok ()) →
       promiseAll (tables.map (res OpKind.job)) = Except.error e →
      initRun tables destTableNames res =
        (tables.map (Effect.mk OpKind.pitr) ++ (tables.map (Effect.mk OpKind.stream)
          ++ ((tablesToCreate tables destTableNames).map (Effect.mk OpKind.create)
          ++ (tables.map (Effect.mk OpKind.upload) ++ tables.map (Effect.mk OpKind.job)))),
         Except.error e)) := by
  refine ⟨?_, ?_, ?_, ?_⟩
  · intro h1
    unfold initRun
    rw [awaitBarrier_error _ _ _ _ h1]
  · intro hp h2
    unfold initRun
    rw [awaitBarrier_ok _ _ _ (promiseAll_map_ok _ _ hp)]
    rw [awaitBarrier_error _ _ _ _ h2]
  · intro hp hs h3
    unfold initRun
    rw [awaitBarrier_ok _ _ _ (promiseAll_map_ok _ _ hp)]
    rw [awaitBarrier_ok _ _ _ (promiseAll_map_ok _ _ hs)]
    rw [awaitBarrier_error _ _ _ _ h3]
  · intro hp hs hc h4
    unfold initRun
    rw [awaitBarrier_ok _ _ _ (promiseAll_map_ok _ _ hp)]
    rw [awaitBarrier_ok _ _ _ (promiseAll_map_ok _ _ hs)]
    rw [awaitBarrier_ok _ _ _ (promiseAll_map_ok _ _ hc)]
    rw [awaitBarrier_ok _ _ _ (rfl : promiseAll [] = Except.ok ())]
    rw [awaitBarrier_error _ _ _ _ h4]

/-- Remote outcomes in which enabling PITR rejects for every table. -/
def pitrFailureRes : OpKind → String → Except String Unit :=
  fun k _ => if k = OpKind.pitr then Except.error "throttled" else Except.ok ()

theorem c3_witness :
    initRun ["A"] [] pitrFailureRes = ([Effect.mk OpKind.pitr "A"], Except.error "throttled") :=
  (c3_awaited_batches_abort ["A"] [] pitrFailureRes "throttled").1 rfl

/-- Remote outcomes in which every call fulfills. -/
def allOkRes : OpKind → String → Except String Unit :=
  fun _ _ => Except.ok ()

/-- Claim C4: On a run where every remote call fulfills, a `createTable`
request is issued for a table iff the table is a discovered source table
whose name is not in the destination listing (case-sensitive exact string
membership, `destTableNames.indexOf(tableName) !== -1`); every other
per-table step — enable PITR, enable streaming, script upload, job
registration — is issued for every discovered source table, with no
prior-completion check. -/
theorem c4_create_skipped_iff_existing (tables destTableNames : List String)
    (res : OpKind → String → Except String Unit)
    (hok : ∀ k t, res k t = Except.ok ()) (t : String) :
    (Effect.mk OpKind.create t ∈ (initRun tables destTableNames res).1
      ↔ (t ∈ tables ∧ t ∉ destTableNames))
    ∧ (∀ k, k ≠ OpKind.create →
        (Effect.mk k t ∈ (initRun tables destTableNames res).1 ↔ t ∈ tables)) := by
  have hrun : initRun tables destTableNames res =
      (tables.map (Effect.mk OpKind.pitr) ++ (tables.map (Effect.mk OpKind.stream)
        ++ ((tablesToCreate tables destTableNames).map (Effect.mk OpKind.create)
        ++ (tables.map (Effect.mk OpKind.upload) ++ (tables.map (Effect.mk OpKind.job) ++ [])))),
       Except.ok ()) := by
    unfold initRun
    rw [awaitBarrier_ok _ _ _ (promiseAll_map_ok _ _ (fun x _ => hok OpKind.pitr x))]
    rw [awaitBarrier_ok _ _ _ (promiseAll_map_ok _ _ (fun x _ => hok OpKind.stream x))]
    rw [awaitBarrier_ok _ _ _ (promiseAll_map_ok _ _ (fun x _ => hok OpKind.create x))]
    rw [awaitBarrier_ok _ _ _ (rfl : promiseAll [] = Except.ok ())]
    rw [awaitBarrier_ok _ _ _ (promiseAll_map_ok _ _ (fun x _ => hok OpKind.job x))]
  rw [hrun]
  constructor
  · simp [tablesToCreate, List.mem_filter]
  · intro k hk
    cases k <;> simp_all [tablesToCreate, List.mem_filter]

theorem c4_witness :
    (Effect.mk OpKind.create "A" ∈ (initRun ["A", "B"] ["B"] allOkRes).1)
    ∧ ¬ (Effect.mk OpKind.create "B" ∈ (initRun ["A", "B"] ["B"] allOkRes).1)
    ∧ (Effect.mk OpKind.upload "B" ∈ (initRun ["A", "B"] ["B"] allOkRes).1) := by
  have hA := c4_create_skipped_iff_existing ["A", "B"] ["B"] allOkRes (fun _ _ => rfl) "A"
  have hB := c4_create_skipped_iff_existing ["A", "B"] ["B"] allOkRes (fun _ _ => rfl) "B"
  refine ⟨hA.1.mpr (by decide), ?_, (hB.2 OpKind.upload (by decide)).mpr (by decide)⟩
  intro hmem
  exact (by decide : ¬("B" ∈ ["A", "B"] ∧ "B" ∉ ["B"])) (hB.1.mp hmem)

/-! ETL column-type translation and mapping rendering (claims C5, C6) -/

/-- Claim C5: The ETL column-type translation maps attribute type code `N` to
`long`, `S` to `string`, `BOOL` to `boolean`, and every other type code to
`string` (the switch's `default` branch). -/
theorem c5_glue_type_translation :
    glueType "N" = "long" ∧ glueType "S" = "string" ∧ glueType "BOOL" = "boolean"
    ∧ ∀ t : String, t ≠ "N" → t ≠ "BOOL" → glueType t = "string" := by
  refine ⟨rfl, rfl, rfl, fun t h1 h2 => ?_⟩
  unfold glueType
  rw [if_neg h1]
  by_cases hs : t = "S"
  · rw [if_pos hs]
  · rw [if_neg hs, if_neg h2]

theorem c5_witness : glueType "SS" = "string" :=
  c5_glue_type_translation.2.2.2 "SS" (by decide) (by decide)

theorem renderTuple_foldItem (s : String) :
    "(\"" ++ ("Item." ++ s) = "(\"Item." ++ s := by
  rw [← String.append_assoc]
  rfl

theorem renderTuple_stringCol (s : String) :
    "\", \"" ++ ("string" ++ s) = "\", \"string" ++ s := by
  rw [← String.append_assoc]
  rfl

theorem renderTuple_stringColSep (s : String) :
    "\", \"string" ++ ("\", \"" ++ s) = "\", \"string\", \"" ++ s := by
  rw [← String.append_assoc]
  rfl

/-- Each rendered mapping entry of an attribute is the rendering of the 4-tuple
`("Item.<name>.<type>", "string", "<name>", glueType <type>)`. -/
theorem mappingEntry_eq_renderTuple (a : AttributeDefinition) :
    mappingEntry a = renderTuple ("Item." ++ a.AttributeName ++ "." ++ a.AttributeType,
      "string", a.AttributeName, glueType a.AttributeType) := by
  unfold mappingEntry renderTuple
  simp only [String.append_assoc, renderTuple_foldItem, renderTuple_stringCol,
    renderTuple_stringColSep]

/-- The attribute definitions of the example table `Orders`. -/
def ordersAttributeDefinitions : List AttributeDefinition :=
  [⟨"id", "S"⟩, ⟨"amount", "N"⟩]

/-- Claim C6: For the source table `Orders` with attribute `id` of type `S` and
`amount` of type `N`, the rendered mapping list is exactly the renderings of
the tuples `("Item.id.S","string","id","string")` and
`("Item.amount.N","string","amount","long")`, and so contains both; in
general every attribute `(name, type)` renders as the tuple
`("Item.<name>.<type>", "string", "<name>", "<translated type>")`. -/
theorem c6_orders_mapping_render :
    mappings ordersAttributeDefinitions =
      [renderTuple ("Item.id.S", "string", "id", "string"),
       renderTuple ("Item.amount.N", "string", "amount", "long")]
    ∧ renderTuple ("Item.id.S", "string", "id", "string") ∈ mappings ordersAttributeDefinitions
    ∧ renderTuple ("Item.amount.N", "string", "amount", "long") ∈ mappings ordersAttributeDefinitions
    ∧ ∀ a : AttributeDefinition,
        mappingEntry a = renderTuple ("Item." ++ a.AttributeName ++ "." ++ a.AttributeType,
          "string", a.AttributeName, glueType a.AttributeType) :=
  ⟨rfl, by decide, by decide, mappingEntry_eq_renderTuple⟩

/-! Artifact naming (claim C9) -/

theorem scriptLocation_slashKey (s : String) :
    "/" ++ ("glue-script-" ++ s) = "/glue-script-" ++ s := by
  rw [← String.append_assoc]
  rfl

/-- Claim C9: For every table name `t`, the uploaded script object is keyed
`glue-script-<t>.py`, the registered job is named `ddb-job-<t>`, and the
registered `ScriptLocation` is `s3://<scriptBucket>/` followed by exactly the
key of the uploaded object, so each job points at the object uploaded for its
table. -/
theorem c9_artifact_contract (scriptBucket t : String) :
    glueScriptKey t = "glue-script-" ++ t ++ ".py"
    ∧ glueJobName t = "ddb-job-" ++ t
    ∧ glueJobScriptLocation scriptBucket t = "s3://" ++ scriptBucket ++ "/" ++ glueScriptKey t := by
  refine ⟨rfl, rfl, ?_⟩
  unfold glueJobScriptLocation glueScriptKey
  simp only [String.append_assoc, scriptLocation_slashKey]

/-! The dispatcher (claims C7, C8) -/

/-- A fixed environment for concrete dispatcher statements. -/
def emptyEnv : InitEnv :=
  ⟨[], [], fun _ _ => Except.ok ()⟩

/-- Claim C7, counterexample: `"toString"` is not a key of the registered
script table (its only key is `"init"`), yet dispatching it does not log an
error: `scripts["toString"]` finds the function inherited from
`Object.prototype`, `typeof` yields the string `function`, and the dispatcher calls
it — the invalid-operation branch is not taken. -/
theorem c7_counterexample :
    ("toString" = "init" → False)
    ∧ run "toString" [] emptyEnv = DispatchOutcome.ranInherited "toString"
    ∧ (run "toString" [] emptyEnv = DispatchOutcome.invalidOperation → False) := by
  refine ⟨by decide, rfl, ?_⟩
  intro h
  exact DispatchOutcome.noConfusion h

/-- Claim C7, amended: For every operation name that is neither `"init"` (the
only own key of the script table) nor the name of a function-valued property
inherited from `Object.prototype`, the dispatcher logs an invalid-operation
error and performs no action: no script runs and no remote call is issued. -/
theorem c7_unknown_operation_logs_error (op : String) (ex : List String) (env : InitEnv)
    (h1 : op ≠ "init") (h2 : objectPrototypeFunctionKeys.contains op = false) :
    run op ex env = DispatchOutcome.invalidOperation := by
  unfold run
  rw [if_neg h1, if_neg (by rw [h2]; exact Bool.false_ne_true)]

theorem c7_witness :
    run "enable" [] emptyEnv = DispatchOutcome.invalidOperation :=
  c7_unknown_operation_logs_error "enable" [] emptyEnv (by decide) (by decide)

/-- Claim C8: Two invocations that differ only in the `excludedStreams`
exclusion list behave identically, through the CLI dispatcher and through
the managed-function handler alike: the parameter is passed to the selected
script but `scripts.init` declares no parameter, so no operation ever
consults it. -/
theorem c8_excluded_streams_never_consulted :
    ∀ (op : String) (ex₁ ex₂ : List String) (env : InitEnv),
      run op ex₁ env = run op ex₂ env
      ∧ handler ⟨op, ex₁⟩ env = handler ⟨op, ex₂⟩ env :=
  fun _ _ _ _ => ⟨rfl, rfl⟩
